import Mathlib

/-
Verification of the dsc SQL connection layer (`sql_connection.go`).

The Go code wraps one physical database handle (`*sql.DB`) and at most one
active transaction handle (`*sql.Tx`) per connection, and a provider that
pools such connections.  We shallowly embed the code as pure Lean functions:
every call into the external driver (`sql.Open`, `db.Begin`, `tx.Commit`,
`db.Ping`, `db.Exec`, the `asSQLDb` interface conversion, the DSN builder)
is modelled by an explicit oracle argument carrying the value that call
returned, so a Go execution corresponds to one choice of oracle values.
Errors produced by `fmt.Errorf` are modelled structurally: one constructor
per format string, carrying exactly the values the format string
interpolates; `DscError.message` renders the literal Go message.

External collaborators not present in the source file (the abstract
pool/connection base types, the dialect registry, the `Config` accessors
`Has`/`GetDuration`/`GetInt`) are modelled from their contracts: the
dialect lookup is an oracle function `String → Bool`, `lastUsed` lives on
the pooled-connection record (in Go it lives on the embedded
`AbstractConnection`), and the tuning keys are explicit optional fields of
`Config`.  The unused `init` field of the Go struct is omitted.
-/

namespace Dsc

/-- One nanosecond-denominated millisecond, matching Go's `time.Millisecond`. -/
def millisecond : Int := 1000000

/-- One nanosecond-denominated second, matching Go's `time.Second`. -/
def second : Int := 1000000000

/-- Key of the optional max-connection-lifetime tuning entry. -/
def connMaxLifetimeMsKey : String := "connMaxLifetimeMs"

/-- Default for the max-connection-lifetime tuning entry, in milliseconds. -/
def defaultConnMaxLifetimeMs : Int := 1000

/-- Key of the optional max-idle-connections tuning entry. -/
def maxIdleConnsKey : String := "maxIdleConns"

/-- A native transaction handle (`*sql.Tx`); the id distinguishes instances. -/
structure SqlTx where
  txid : Nat
deriving DecidableEq

/-- A native database handle (`*sql.DB`) together with the driver-side
settings the code can change through `SetConnMaxLifetime`,
`SetMaxIdleConns` and `Close`. -/
structure SqlDB where
  dbid : Nat
  connMaxLifetime : Int
  maxIdleConns : Int
  closed : Bool
deriving DecidableEq

/-- Structural rendering of every error the embedded code can build.
Each constructor corresponds to one `fmt.Errorf` call site (or to an error
returned verbatim from the driver) and carries exactly the values that the
format string interpolates. -/
inductive DscError where
  | noActiveTransaction : DscError
  | driverErr (cause : String) : DscError
  | dsnErr (cause : String) : DscError
  | openFailed (driverName descriptor cause : String) : DscError
  | initSQLFailed (sql descriptor cause : String) : DscError
deriving DecidableEq

/-- The literal Go error message of each `DscError`, following the
`fmt.Errorf` format strings in the source. -/
def DscError.message : DscError → String
  | .noActiveTransaction => "no active transaction"
  | .driverErr cause => cause
  | .dsnErr cause => cause
  | .openFailed driverName descriptor cause =>
      "failed to open connection to " ++ driverName ++ " on " ++ descriptor
        ++ " due to " ++ cause
  | .initSQLFailed sql descriptor cause =>
      "failed to execute init SQL " ++ sql ++ " on " ++ descriptor
        ++ " due to " ++ cause

/-- Does `needle` occur at the start of `hay`? (character lists) -/
def charsStartWith : List Char → List Char → Bool
  | [], _ => true
  | _ :: _, [] => false
  | a :: as, b :: bs => a == b && charsStartWith as bs

/-- Does `needle` occur anywhere inside `hay`? (character lists) -/
def charsOccur (needle : List Char) : List Char → Bool
  | [] => needle.isEmpty
  | b :: bs => charsStartWith needle (b :: bs) || charsOccur needle bs

/-- Substring occurrence on strings, used to ask whether an error message
mentions a given value. -/
def strOccurs (needle hay : String) : Bool :=
  charsOccur needle.data hay.data

/-- The state of one `sqlConnection`: the transaction-capability flag fixed
at construction from the dialect, the native handle, and the optional
active transaction handle. -/
structure sqlConnection where
  canHandleTransaction : Bool
  db : SqlDB
  tx : Option SqlTx
deriving DecidableEq

/-- `sqlConnection.Begin`.  `asDbErr` is the result of the `asSQLDb`
interface conversion (`none` = success) and `beginRes` the result of the
driver's `db.Begin()`. -/
def sqlConnection.Begin (c : sqlConnection) (asDbErr : Option String)
    (beginRes : Except String SqlTx) : Option DscError × sqlConnection :=
  if !c.canHandleTransaction then (none, c)
  else
    match asDbErr with
    | some e => (some (DscError.driverErr e), c)
    | none =>
      match beginRes with
      | Except.error e => (some (DscError.driverErr e), c)
      | Except.ok tx => (none, { c with tx := some tx })

/-- `sqlConnection.Commit`.  `commitErr` is the result of the driver's
`tx.Commit()` on the stored transaction handle (`none` = success). -/
def sqlConnection.Commit (c : sqlConnection) (commitErr : Option String) :
    Option DscError × sqlConnection :=
  if !c.canHandleTransaction then (none, c)
  else
    match c.tx with
    | none => (some DscError.noActiveTransaction, c)
    | some _ => (commitErr.map DscError.driverErr, { c with tx := none })

/-- `sqlConnection.Rollback`.  `rollbackErr` is the result of the driver's
`tx.Rollback()` on the stored transaction handle (`none` = success). -/
def sqlConnection.Rollback (c : sqlConnection) (rollbackErr : Option String) :
    Option DscError × sqlConnection :=
  if !c.canHandleTransaction then (none, c)
  else
    match c.tx with
    | none => (some DscError.noActiveTransaction, c)
    | some _ => (rollbackErr.map DscError.driverErr, { c with tx := none })

/-- `sqlConnection.CloseNow`: set the handle's max connection lifetime to
1000 ms, then close it.  `asDbErr` models `asSQLDb`, `closeErr` the result
of `db.Close()`. -/
def sqlConnection.CloseNow (c : sqlConnection) (asDbErr : Option String)
    (closeErr : Option String) : Option DscError × sqlConnection :=
  match asDbErr with
  | some e => (some (DscError.driverErr e), c)
  | none =>
    (closeErr.map DscError.driverErr,
      { c with db := { c.db with connMaxLifetime := 1000 * millisecond, closed := true } })

/-- The capability tags `Unwrap` is compared against: the two sentinels
`sqlDbPointer` and `sqlTxtPointer`, or any other runtime value. -/
inductive UnwrapTarget where
  | sqlDbPointer : UnwrapTarget
  | sqlTxtPointer : UnwrapTarget
  | other (tag : String) : UnwrapTarget
deriving DecidableEq

/-- What a call to `Unwrap` does: return the native database handle, return
the (possibly nil) native transaction handle, or abort the process with a
panic message. -/
inductive UnwrapOutcome where
  | dbHandle (db : SqlDB) : UnwrapOutcome
  | txHandle (tx : Option SqlTx) : UnwrapOutcome
  | fatalFault (msg : String) : UnwrapOutcome
deriving DecidableEq

/-- `sqlConnection.Unwrap`: sentinel comparison against `sqlDbPointer` and
`sqlTxtPointer`, panicking on anything else.  It reads the connection and
returns a value; it does not modify any field. -/
def sqlConnection.Unwrap (c : sqlConnection) : UnwrapTarget → UnwrapOutcome
  | UnwrapTarget.sqlDbPointer => UnwrapOutcome.dbHandle c.db
  | UnwrapTarget.sqlTxtPointer => UnwrapOutcome.txHandle c.tx
  | UnwrapTarget.other tag => UnwrapOutcome.fatalFault ("unsupported target type " ++ tag)

/-- Modelled from the spec: the read-only `Config` consumed by the provider
(the Go `Config` type lives outside this source file).  It exposes
`DriverName`, `Descriptor`, the ordered `InitSQL` statements, `MaxPoolSize`,
and the optional tuning entries `connMaxLifetimeMs` (a duration count,
default 1000 ms) and `maxIdleConns` (an integer, default 1), each with a
presence flag realising `Config.Has`. -/
structure Config where
  DriverName : String
  Descriptor : String
  InitSQL : List String
  MaxPoolSize : Nat
  hasConnMaxLifetimeMs : Bool
  connMaxLifetimeMsVal : Int
  hasMaxIdleConns : Bool
  maxIdleConnsVal : Int
deriving DecidableEq

/-- Modelled from the spec: `Config.Has` reports whether a tuning key is
present in the config. -/
def Config.Has (c : Config) (key : String) : Bool :=
  if key == connMaxLifetimeMsKey then c.hasConnMaxLifetimeMs
  else if key == maxIdleConnsKey then c.hasMaxIdleConns
  else false

/-- Modelled from the spec: `Config.GetDuration key unit dflt` returns the
stored count for `key` (or `dflt` when absent) scaled by `unit`. -/
def Config.GetDuration (c : Config) (key : String) (unit dflt : Int) : Int :=
  if key == connMaxLifetimeMsKey && c.hasConnMaxLifetimeMs then
    c.connMaxLifetimeMsVal * unit
  else dflt * unit

/-- Modelled from the spec: `Config.GetInt key dflt` returns the stored
integer for `key` (or `dflt` when absent). -/
def Config.GetInt (c : Config) (key : String) (dflt : Int) : Int :=
  if key == maxIdleConnsKey && c.hasMaxIdleConns then c.maxIdleConnsVal
  else dflt

/-- Oracle values for one run of `NewConnection`: the result of
`config.DsnDescriptor()`, of `sql.Open` (the error cause, or the fresh
handle on success), of `db.Exec` on each initialization statement, and the
dialect registry's transaction-capability answer per driver name. -/
structure NewConnEnv where
  dsnResult : Except String String
  openErr : Option String
  freshDb : SqlDB
  execErr : String → Option String
  dialectCanTx : String → Bool

/-- The initialization loop of `NewConnection`: run the statements in
order, stopping at the first `db.Exec` failure.  Returns the statements
actually handed to `db.Exec` (in order) and the error, if any, built from
the offending statement, the endpoint descriptor, and the cause. -/
def runInitSQL (descriptor : String) (execErr : String → Option String) :
    List String → List String × Option DscError
  | [] => ([], none)
  | s :: rest =>
    match execErr s with
    | some e => ([s], some (DscError.initSQLFailed s descriptor e))
    | none =>
      let r := runInitSQL descriptor execErr rest
      (s :: r.1, r.2)

/-- `sqlConnectionProvider.NewConnection`: resolve the DSN, open a native
handle (wrapping an open failure with driver name and descriptor), run the
initialization statements in order, look up the dialect's transaction
capability, and wrap the handle in a fresh connection with no active
transaction. -/
def sqlConnectionProvider.NewConnection (config : Config) (env : NewConnEnv) :
    Except DscError sqlConnection :=
  match env.dsnResult with
  | Except.error e => Except.error (DscError.dsnErr e)
  | Except.ok _ =>
    match env.openErr with
    | some e => Except.error (DscError.openFailed config.DriverName config.Descriptor e)
    | none =>
      match (runInitSQL config.Descriptor env.execErr config.InitSQL).2 with
      | some err => Except.error err
      | none =>
        Except.ok
          { canHandleTransaction := env.dialectCanTx config.DriverName
            db := env.freshDb
            tx := none }

/-- A connection as dequeued from the pool: the wrapped connection plus the
`lastUsedTimestamp` kept by the abstract pool layer (nanoseconds). -/
structure PooledConn where
  conn : sqlConnection
  lastUsed : Option Int
deriving DecidableEq

/-- Oracle values for one run of `Get`: the result of the abstract
provider's pool dequeue, of the `asSQLDb` conversion on the dequeued
handle, the current time `now` (nanoseconds), the result of `db.Ping()`
should it be called, and the oracles for a possible `NewConnection` call. -/
structure GetEnv where
  poolResult : Except DscError PooledConn
  asDbErr : Option String
  now : Int
  pingErr : Option String
  newEnv : NewConnEnv

/-- The staleness test of `Get`: the dequeued connection has a last-used
timestamp more than 60 seconds before `now`. -/
def staleOf (env : GetEnv) (pc : PooledConn) : Bool :=
  match pc.lastUsed with
  | some t => decide (env.now - t > 60 * second)
  | none => false

/-- What `Get` hands back on success: either the dequeued pooled connection
itself or a brand-new connection manufactured by `NewConnection`. -/
inductive GetResult where
  | pooled (c : PooledConn) : GetResult
  | fresh (c : sqlConnection) : GetResult
deriving DecidableEq

/-- Decidable equality for `Except`, needed to evaluate outcomes on
concrete inputs. -/
instance instDecidableEqExcept {ε α : Type} [DecidableEq ε] [DecidableEq α] :
    DecidableEq (Except ε α) := fun a b =>
  match a, b with
  | Except.error e, Except.error e' =>
      if h : e = e' then isTrue (by rw [h]) else isFalse (by intro hc; cases hc; exact h rfl)
  | Except.error _, Except.ok _ => isFalse (by intro hc; cases hc)
  | Except.ok _, Except.error _ => isFalse (by intro hc; cases hc)
  | Except.ok v, Except.ok v' =>
      if h : v = v' then isTrue (by rw [h]) else isFalse (by intro hc; cases hc; exact h rfl)

/-- The observable outcome of one `Get` call: the returned connection or
error, the final driver-side state of the dequeued connection's native
handle (`none` when `Get` failed before reaching it), and whether a
liveness probe was performed. -/
structure GetOutcome where
  result : Except DscError GetResult
  pooledDb : Option SqlDB
  pinged : Bool
deriving DecidableEq

/-- The tuning block of `Get` (applied, in the source, only after a failed
liveness probe): when `connMaxLifetimeMs` is configured and nonzero, set the
handle's max connection lifetime; when `maxIdleConns` is configured, set the
handle's max idle connections. -/
def applyTuning (config : Config) (db : SqlDB) : SqlDB :=
  let db1 :=
    if config.Has connMaxLifetimeMsKey then
      let d := config.GetDuration connMaxLifetimeMsKey millisecond defaultConnMaxLifetimeMs
      if d != 0 then { db with connMaxLifetime := d } else db
    else db
  if config.Has maxIdleConnsKey then
    { db1 with maxIdleConns := config.GetInt maxIdleConnsKey 1 }
  else db1

/-- `sqlConnectionProvider.Get`: dequeue from the pool, convert the handle,
probe it when stale; on a clean probe (or none) return the dequeued
connection unchanged; on a failed probe apply the tuning block to the stale
handle and manufacture a replacement via `NewConnection`.
(`result.Unwrap sqlDbPointer` always yields the stored `db` field, so the
conversion is run on `pc.conn.db` directly.) -/
def sqlConnectionProvider.Get (config : Config) (env : GetEnv) : GetOutcome :=
  match env.poolResult with
  | Except.error e => { result := Except.error e, pooledDb := none, pinged := false }
  | Except.ok pc =>
    match env.asDbErr with
    | some e =>
        { result := Except.error (DscError.driverErr e), pooledDb := none, pinged := false }
    | none =>
      let stale := staleOf env pc
      let probeErr : Option String := if stale then env.pingErr else none
      match probeErr with
      | none =>
          { result := Except.ok (GetResult.pooled pc), pooledDb := some pc.conn.db
            pinged := stale }
      | some _ =>
        let db1 := applyTuning config pc.conn.db
        match sqlConnectionProvider.NewConnection config env.newEnv with
        | Except.error e => { result := Except.error e, pooledDb := some db1, pinged := stale }
        | Except.ok c =>
            { result := Except.ok (GetResult.fresh c), pooledDb := some db1, pinged := stale }

/-- The observable state of a freshly constructed provider: the config it
stores (in Go the very `*Config` the caller passed in) and the capacity the
bounded pool channel was allocated with. -/
structure Provider where
  config : Config
  poolCapacity : Nat
deriving DecidableEq

/-- `newSQLConnectionProvider`: default `MaxPoolSize` to 1 when it is 0
(writing through the caller's pointer), then allocate the pool channel with
capacity `config.MaxPoolSize`. -/
def newSQLConnectionProvider (config : Config) : Provider :=
  let config :=
    if config.MaxPoolSize == 0 then { config with MaxPoolSize := 1 } else config
  { config := config, poolCapacity := config.MaxPoolSize }

/-- The transaction invariant of the data model: an active transaction
handle is stored only when the dialect supports transactions. -/
def txInvariant (c : sqlConnection) : Prop :=
  c.tx.isSome = true → c.canHandleTransaction = true

/-- How many transaction handles a connection stores (0 or 1; the `tx`
field is a single optional slot). -/
def txHandleCount (c : sqlConnection) : Nat :=
  if c.tx.isSome then 1 else 0

/-- One call on a connection, with the oracle values of the external driver
calls it performs. -/
inductive ConnOp where
  | opBegin (asDbErr : Option String) (beginRes : Except String SqlTx) : ConnOp
  | opCommit (commitErr : Option String) : ConnOp
  | opRollback (rollbackErr : Option String) : ConnOp
  | opCloseNow (asDbErr closeErr : Option String) : ConnOp
  | opUnwrap (target : UnwrapTarget) : ConnOp

/-- The connection state after one call.  `Unwrap` only reads the
connection (its embedding returns a value, not a state), so it leaves the
state unchanged. -/
def applyOp (c : sqlConnection) : ConnOp → sqlConnection
  | ConnOp.opBegin a b => (c.Begin a b).2
  | ConnOp.opCommit e => (c.Commit e).2
  | ConnOp.opRollback e => (c.Rollback e).2
  | ConnOp.opCloseNow a e => (c.CloseNow a e).2
  | ConnOp.opUnwrap _ => c

/- Concrete fixtures used to evaluate the embedding on closed inputs. -/

/-- A concrete native handle. -/
def dbW : SqlDB := { dbid := 1, connMaxLifetime := 0, maxIdleConns := 0, closed := false }

/-- A concrete transaction handle. -/
def txW : SqlTx := { txid := 7 }

/-- A connection whose dialect does not support transactions. -/
def connNoTx : sqlConnection := { canHandleTransaction := false, db := dbW, tx := none }

/-- A transactional connection with no active transaction. -/
def connTxIdle : sqlConnection := { canHandleTransaction := true, db := dbW, tx := none }

/-- A transactional connection with an active transaction. -/
def connTxActive : sqlConnection := { canHandleTransaction := true, db := dbW, tx := some txW }

/-- A concrete config: no tuning keys, three init statements. -/
def cfgBase : Config :=
  { DriverName := "pg", Descriptor := "host", InitSQL := ["A", "B", "C"], MaxPoolSize := 2
    hasConnMaxLifetimeMs := false, connMaxLifetimeMsVal := 0
    hasMaxIdleConns := false, maxIdleConnsVal := 0 }

/-- Oracles for a `NewConnection` run in which every driver call succeeds. -/
def envInitOK : NewConnEnv :=
  { dsnResult := Except.ok "user@host", openErr := none
    freshDb := { dbid := 3, connMaxLifetime := 0, maxIdleConns := 0, closed := false }
    execErr := fun _ => none, dialectCanTx := fun _ => true }

/-- Oracles for a `NewConnection` run in which `db.Exec` fails on the
statement `"B"` with cause `"boom"` and succeeds elsewhere. -/
def envInitFailB : NewConnEnv :=
  { dsnResult := Except.ok "user@host", openErr := none
    freshDb := { dbid := 3, connMaxLifetime := 0, maxIdleConns := 0, closed := false }
    execErr := fun s => if s == "B" then some "boom" else none
    dialectCanTx := fun _ => true }

/-- A concrete config with a single failing init statement. -/
def cfgC7 : Config :=
  { DriverName := "pg", Descriptor := "host", InitSQL := ["BAD"], MaxPoolSize := 1
    hasConnMaxLifetimeMs := false, connMaxLifetimeMsVal := 0
    hasMaxIdleConns := false, maxIdleConnsVal := 0 }

/-- Oracles for a `NewConnection` run in which `db.Exec` fails on `"BAD"`. -/
def envC7 : NewConnEnv :=
  { dsnResult := Except.ok "user@host", openErr := none
    freshDb := { dbid := 3, connMaxLifetime := 0, maxIdleConns := 0, closed := false }
    execErr := fun s => if s == "BAD" then some "boom" else none
    dialectCanTx := fun _ => true }

/-- A pooled connection last used at time 0. -/
def pcStale : PooledConn := { conn := connTxIdle, lastUsed := some 0 }

/-- A pooled connection with no last-used timestamp (no probe needed). -/
def pcNoStamp : PooledConn := { conn := connTxIdle, lastUsed := none }

/-- Oracles for a `Get` run hitting a stale connection whose ping fails. -/
def envGet : GetEnv :=
  { poolResult := Except.ok pcStale, asDbErr := none, now := 100 * second
    pingErr := some "connection reset", newEnv := envInitOK }

/-- A concrete config with the `connMaxLifetimeMs` tuning key set to 5 ms. -/
def cfgTune : Config :=
  { DriverName := "pg", Descriptor := "host", InitSQL := [], MaxPoolSize := 1
    hasConnMaxLifetimeMs := true, connMaxLifetimeMsVal := 5
    hasMaxIdleConns := false, maxIdleConnsVal := 0 }

/-- Oracles for a `Get` run in which no liveness probe is needed. -/
def envTune : GetEnv :=
  { poolResult := Except.ok pcNoStamp, asDbErr := none, now := 0
    pingErr := none, newEnv := envInitOK }

/-- A concrete config with `MaxPoolSize` left unset (zero). -/
def cfgZero : Config :=
  { DriverName := "pg", Descriptor := "host", InitSQL := [], MaxPoolSize := 0
    hasConnMaxLifetimeMs := false, connMaxLifetimeMsVal := 0
    hasMaxIdleConns := false, maxIdleConnsVal := 0 }

theorem txHandleCount_le_one (c : sqlConnection) : txHandleCount c ≤ 1 := by
  unfold txHandleCount
  split <;> simp

/-- C1: on a connection whose dialect reports no transaction support,
`Begin`, `Commit` and `Rollback` return success (`nil` error) and leave the
connection — native handle and transaction slot alike — untouched, for
every possible outcome of the driver calls (which are therefore never
consulted); in particular no transaction handle is ever created or
stored. -/
theorem begin_commit_rollback_noop_without_tx_support
    (c : sqlConnection) (asDbErr : Option String) (beginRes : Except String SqlTx)
    (commitErr rollbackErr : Option String)
    (h : c.canHandleTransaction = false) :
    c.Begin asDbErr beginRes = (none, c) ∧
    c.Commit commitErr = (none, c) ∧
    c.Rollback rollbackErr = (none, c) := by
  simp [sqlConnection.Begin, sqlConnection.Commit, sqlConnection.Rollback, h]

theorem begin_commit_rollback_noop_without_tx_support_witness :
    connNoTx.canHandleTransaction = false ∧
    (connNoTx.Begin (some "broken") (Except.error "down") = (none, connNoTx) ∧
     connNoTx.Commit (some "boom") = (none, connNoTx) ∧
     connNoTx.Rollback none = (none, connNoTx)) :=
  ⟨rfl, begin_commit_rollback_noop_without_tx_support connNoTx (some "broken")
    (Except.error "down") (some "boom") none rfl⟩

/-- C2: on a transactional connection with no stored transaction handle,
`Commit` and `Rollback` return the "no active transaction" error and leave
the connection unchanged (the handle stays null). -/
theorem commit_rollback_without_active_tx_error
    (c : sqlConnection) (commitErr rollbackErr : Option String)
    (hcap : c.canHandleTransaction = true) (htx : c.tx = none) :
    c.Commit commitErr = (some DscError.noActiveTransaction, c) ∧
    c.Rollback rollbackErr = (some DscError.noActiveTransaction, c) ∧
    DscError.message DscError.noActiveTransaction = "no active transaction" := by
  simp [sqlConnection.Commit, sqlConnection.Rollback, hcap, htx, DscError.message]

theorem commit_rollback_without_active_tx_error_witness :
    connTxIdle.canHandleTransaction = true ∧ connTxIdle.tx = none ∧
    (connTxIdle.Commit none = (some DscError.noActiveTransaction, connTxIdle) ∧
     connTxIdle.Rollback (some "x") = (some DscError.noActiveTransaction, connTxIdle) ∧
     DscError.message DscError.noActiveTransaction = "no active transaction") :=
  ⟨rfl, rfl, commit_rollback_without_active_tx_error connTxIdle none (some "x") rfl rfl⟩

/-- C3: on a transactional connection with an active transaction, `Commit`
(and symmetrically `Rollback`) clears the stored transaction handle
whatever the driver's commit reports (the driver outcome is returned
verbatim), and a second `Commit` with no intervening `Begin` returns the
"no active transaction" error. -/
theorem commit_clears_tx_and_second_commit_errors
    (c : sqlConnection) (t : SqlTx) (e1 e2 e3 : Option String)
    (hcap : c.canHandleTransaction = true) (htx : c.tx = some t) :
    (c.Commit e1).2.tx = none ∧
    (c.Rollback e2).2.tx = none ∧
    (c.Commit e1).1 = e1.map DscError.driverErr ∧
    (c.Commit e1).2.Commit e3 = (some DscError.noActiveTransaction, (c.Commit e1).2) := by
  obtain ⟨cap, db, tx⟩ := c
  simp only at hcap htx
  subst hcap htx
  simp [sqlConnection.Commit, sqlConnection.Rollback]

theorem commit_clears_tx_and_second_commit_errors_witness :
    connTxActive.canHandleTransaction = true ∧ connTxActive.tx = some txW ∧
    ((connTxActive.Commit (some "io")).2.tx = none ∧
     (connTxActive.Rollback none).2.tx = none ∧
     (connTxActive.Commit (some "io")).1 = (some "io").map DscError.driverErr ∧
     (connTxActive.Commit (some "io")).2.Commit none =
       (some DscError.noActiveTransaction, (connTxActive.Commit (some "io")).2)) :=
  ⟨rfl, rfl, commit_clears_tx_and_second_commit_errors connTxActive txW (some "io")
    none none rfl rfl⟩

/-- C8: `Unwrap` returns the native database handle for the
`sqlDbPointer` sentinel, the stored (possibly nil) transaction handle for
the `sqlTxtPointer` sentinel, and aborts with a panic — not a recoverable
error value — on every other tag. -/
theorem unwrap_dispatch (c : sqlConnection) (tag : String) :
    c.Unwrap UnwrapTarget.sqlDbPointer = UnwrapOutcome.dbHandle c.db ∧
    c.Unwrap UnwrapTarget.sqlTxtPointer = UnwrapOutcome.txHandle c.tx ∧
    c.Unwrap (UnwrapTarget.other tag) =
      UnwrapOutcome.fatalFault ("unsupported target type " ++ tag) :=
  ⟨rfl, rfl, rfl⟩

/-- C6: every connection operation — `Begin`, `Commit`, `Rollback`,
`CloseNow`, and the purely-reading `Unwrap` — preserves the invariant that
a transaction handle is stored only when the connection's
transaction-capability flag is true, and the single optional `tx` slot
holds at most one transaction handle at any time. -/
theorem connection_ops_preserve_tx_invariant
    (c : sqlConnection) (op : ConnOp) (h : txInvariant c) :
    txInvariant (applyOp c op) ∧ txHandleCount (applyOp c op) ≤ 1 := by
  refine ⟨?_, txHandleCount_le_one _⟩
  cases op with
  | opBegin a b =>
    by_cases hcap : c.canHandleTransaction
    · cases a with
      | some e => simpa [applyOp, sqlConnection.Begin, hcap] using h
      | none =>
        cases b with
        | error e => simpa [applyOp, sqlConnection.Begin, hcap] using h
        | ok t => simp [applyOp, sqlConnection.Begin, hcap, txInvariant]
    · simpa [applyOp, sqlConnection.Begin, hcap] using h
  | opCommit e =>
    by_cases hcap : c.canHandleTransaction
    · cases htx : c.tx with
      | none => simpa [applyOp, sqlConnection.Commit, hcap, htx] using h
      | some t => simp [applyOp, sqlConnection.Commit, hcap, htx, txInvariant]
    · simpa [applyOp, sqlConnection.Commit, hcap] using h
  | opRollback e =>
    by_cases hcap : c.canHandleTransaction
    · cases htx : c.tx with
      | none => simpa [applyOp, sqlConnection.Rollback, hcap, htx] using h
      | some t => simp [applyOp, sqlConnection.Rollback, hcap, htx, txInvariant]
    · simpa [applyOp, sqlConnection.Rollback, hcap] using h
  | opCloseNow a e =>
    cases a with
    | some err => simpa [applyOp, sqlConnection.CloseNow] using h
    | none =>
      intro hsome
      have : c.tx.isSome = true := by
        simpa [applyOp, sqlConnection.CloseNow] using hsome
      simpa [applyOp, sqlConnection.CloseNow] using h this
  | opUnwrap t => simpa [applyOp] using h

theorem connection_ops_preserve_tx_invariant_witness :
    txInvariant connTxActive ∧
    (txInvariant (applyOp connTxActive (ConnOp.opCommit (some "io"))) ∧
     txHandleCount (applyOp connTxActive (ConnOp.opCommit (some "io"))) ≤ 1) :=
  ⟨fun _ => rfl,
   connection_ops_preserve_tx_invariant connTxActive (ConnOp.opCommit (some "io"))
     (fun _ => rfl)⟩

/-- C4: when `Get` dequeues a connection whose last-used timestamp is more
than 60 seconds in the past and the liveness probe fails, a probe is
performed, the result is exactly the outcome of manufacturing a brand-new
connection via `NewConnection` (so an error propagates only when the
manufacture itself fails, and the ping failure is never surfaced), and the
dequeued instance itself is never returned. -/
theorem get_stale_ping_failure_returns_fresh
    (config : Config) (env : GetEnv) (pc : PooledConn) (t : Int)
    (hpool : env.poolResult = Except.ok pc)
    (hdb : env.asDbErr = none)
    (hlast : pc.lastUsed = some t)
    (hstale : env.now - t > 60 * second)
    (hping : env.pingErr.isSome = true) :
    (sqlConnectionProvider.Get config env).result =
      Except.map GetResult.fresh (sqlConnectionProvider.NewConnection config env.newEnv) ∧
    (sqlConnectionProvider.Get config env).pinged = true ∧
    (sqlConnectionProvider.Get config env).result ≠
      Except.ok (GetResult.pooled pc) := by
  have hstaleOf : staleOf env pc = true := by
    simp [staleOf, hlast, hstale]
  obtain ⟨pe, hpe⟩ := Option.isSome_iff_exists.mp hping
  cases hnc : sqlConnectionProvider.NewConnection config env.newEnv with
  | error e =>
    refine ⟨?_, ?_, ?_⟩ <;>
      simp [sqlConnectionProvider.Get, hpool, hdb, hstaleOf, hpe, hnc, Except.map]
  | ok cnew =>
    refine ⟨?_, ?_, ?_⟩ <;>
      simp [sqlConnectionProvider.Get, hpool, hdb, hstaleOf, hpe, hnc, Except.map]

theorem get_stale_ping_failure_returns_fresh_witness :
    envGet.poolResult = Except.ok pcStale ∧
    envGet.asDbErr = none ∧
    pcStale.lastUsed = some 0 ∧
    envGet.now - 0 > 60 * second ∧
    envGet.pingErr.isSome = true ∧
    ((sqlConnectionProvider.Get cfgBase envGet).result =
       Except.map GetResult.fresh (sqlConnectionProvider.NewConnection cfgBase envGet.newEnv) ∧
     (sqlConnectionProvider.Get cfgBase envGet).pinged = true ∧
     (sqlConnectionProvider.Get cfgBase envGet).result ≠
       Except.ok (GetResult.pooled pcStale)) :=
  ⟨rfl, rfl, rfl, by decide, rfl,
   get_stale_ping_failure_returns_fresh cfgBase envGet pcStale 0 rfl rfl rfl
     (by decide) rfl⟩

/-- C5 counterexample: a `Get` run with the `connMaxLifetimeMs` tuning key
configured and no probe needed returns the dequeued connection with its
native handle untouched — the tuning call (which would have changed the
handle) is not applied on this path, contrary to the claim. -/
theorem get_success_path_skips_tuning_cex :
    cfgTune.Has connMaxLifetimeMsKey = true ∧
    sqlConnectionProvider.Get cfgTune envTune =
      { result := Except.ok (GetResult.pooled pcNoStamp)
        pooledDb := some connTxIdle.db
        pinged := false } ∧
    applyTuning cfgTune connTxIdle.db ≠ connTxIdle.db := by
  refine ⟨rfl, rfl, ?_⟩
  decide

/-- C5 (amended): on the path where the liveness probe succeeds or no probe
was needed, `Get` returns the dequeued connection with its native handle
untouched — no tuning is applied even when the tuning keys are configured;
the tuning calls are applied only on the probe-failure path, to the stale
handle, before the replacement connection is manufactured. -/
theorem get_tuning_only_on_probe_failure_path
    (config : Config) (env : GetEnv) (pc : PooledConn)
    (hpool : env.poolResult = Except.ok pc)
    (hdb : env.asDbErr = none) :
    ((staleOf env pc = false ∨ env.pingErr = none) →
      sqlConnectionProvider.Get config env =
        { result := Except.ok (GetResult.pooled pc), pooledDb := some pc.conn.db
          pinged := staleOf env pc }) ∧
    (staleOf env pc = true → env.pingErr.isSome = true →
      (sqlConnectionProvider.Get config env).pooledDb =
        some (applyTuning config pc.conn.db)) := by
  constructor
  · intro hok
    rcases hok with hs | hp
    · simp [sqlConnectionProvider.Get, hpool, hdb, hs]
    · cases hs : staleOf env pc <;>
        simp [sqlConnectionProvider.Get, hpool, hdb, hs, hp]
  · intro hs hp
    obtain ⟨pe, hpe⟩ := Option.isSome_iff_exists.mp hp
    cases hnc : sqlConnectionProvider.NewConnection config env.newEnv <;>
      simp [sqlConnectionProvider.Get, hpool, hdb, hs, hpe, hnc]

theorem get_tuning_only_on_probe_failure_path_witness :
    envTune.poolResult = Except.ok pcNoStamp ∧
    envTune.asDbErr = none ∧
    (((staleOf envTune pcNoStamp = false ∨ envTune.pingErr = none) →
       sqlConnectionProvider.Get cfgTune envTune =
         { result := Except.ok (GetResult.pooled pcNoStamp)
           pooledDb := some pcNoStamp.conn.db
           pinged := staleOf envTune pcNoStamp }) ∧
     (staleOf envTune pcNoStamp = true → envTune.pingErr.isSome = true →
       (sqlConnectionProvider.Get cfgTune envTune).pooledDb =
         some (applyTuning cfgTune pcNoStamp.conn.db))) :=
  ⟨rfl, rfl, get_tuning_only_on_probe_failure_path cfgTune envTune pcNoStamp rfl rfl⟩

theorem runInitSQL_first_failure
    (descriptor : String) (execErr : String → Option String)
    (pre : List String) (s e : String) (post : List String)
    (hpre : ∀ q ∈ pre, execErr q = none) (hs : execErr s = some e) :
    runInitSQL descriptor execErr (pre ++ s :: post) =
      (pre ++ [s], some (DscError.initSQLFailed s descriptor e)) := by
  induction pre with
  | nil => simp [runInitSQL, hs]
  | cons q qs ih =>
    have hq : execErr q = none := hpre q (List.mem_cons_self q qs)
    have hqs : ∀ r ∈ qs, execErr r = none := fun r hr => hpre r (List.mem_cons_of_mem q hr)
    simp [runInitSQL, hq, ih hqs]

/-- C7 (amended): when the init statements are `pre ++ s :: post`, every
statement in `pre` succeeds and `s` fails with cause `e` (DSN resolution
and `sql.Open` having succeeded), `NewConnection` executes exactly
`pre ++ [s]` in order — the statements after the failure are never run —
and aborts with an error carrying the offending statement, the endpoint
descriptor, and the underlying cause, whose message is the literal Go
string (the driver name is not part of this message; no compensating
action is modelled, matching the source). -/
theorem new_connection_init_sql_order_and_error
    (config : Config) (env : NewConnEnv)
    (pre : List String) (s e : String) (post : List String) (d : String)
    (hsql : config.InitSQL = pre ++ s :: post)
    (hpre : ∀ q ∈ pre, env.execErr q = none)
    (hs : env.execErr s = some e)
    (hdsn : env.dsnResult = Except.ok d)
    (hopen : env.openErr = none) :
    runInitSQL config.Descriptor env.execErr config.InitSQL =
      (pre ++ [s], some (DscError.initSQLFailed s config.Descriptor e)) ∧
    sqlConnectionProvider.NewConnection config env =
      Except.error (DscError.initSQLFailed s config.Descriptor e) ∧
    DscError.message (DscError.initSQLFailed s config.Descriptor e) =
      "failed to execute init SQL " ++ s ++ " on " ++ config.Descriptor
        ++ " due to " ++ e := by
  have hrun := runInitSQL_first_failure config.Descriptor env.execErr pre s e post hpre hs
  refine ⟨by rw [hsql]; exact hrun, ?_, rfl⟩
  simp [sqlConnectionProvider.NewConnection, hdsn, hopen, hsql, hrun]

theorem new_connection_init_sql_order_and_error_witness :
    cfgBase.InitSQL = ["A"] ++ "B" :: ["C"] ∧
    (∀ q ∈ ["A"], envInitFailB.execErr q = none) ∧
    envInitFailB.execErr "B" = some "boom" ∧
    envInitFailB.dsnResult = Except.ok "user@host" ∧
    envInitFailB.openErr = none ∧
    (runInitSQL cfgBase.Descriptor envInitFailB.execErr cfgBase.InitSQL =
       (["A"] ++ ["B"], some (DscError.initSQLFailed "B" cfgBase.Descriptor "boom")) ∧
     sqlConnectionProvider.NewConnection cfgBase envInitFailB =
       Except.error (DscError.initSQLFailed "B" cfgBase.Descriptor "boom") ∧
     DscError.message (DscError.initSQLFailed "B" cfgBase.Descriptor "boom") =
       "failed to execute init SQL " ++ "B" ++ " on " ++ cfgBase.Descriptor
         ++ " due to " ++ "boom") :=
  ⟨rfl, by decide, rfl, rfl, rfl,
   new_connection_init_sql_order_and_error cfgBase envInitFailB ["A"] "B" "boom" ["C"]
     "user@host" rfl (by decide) rfl rfl rfl⟩

/-- C7 counterexample: for a failing init statement the error `NewConnection`
returns renders to a message that does not contain the configured driver
name (`"pg"`) — it carries only the statement, the endpoint descriptor, and
the cause — so the claim that the init-failure error includes the driver
name is false on the code. -/
theorem init_sql_error_lacks_driver_name_cex :
    cfgC7.DriverName = "pg" ∧
    sqlConnectionProvider.NewConnection cfgC7 envC7 =
      Except.error (DscError.initSQLFailed "BAD" "host" "boom") ∧
    strOccurs "pg" (DscError.message (DscError.initSQLFailed "BAD" "host" "boom")) =
      false := by
  refine ⟨rfl, rfl, ?_⟩
  decide

/-- C9 counterexample: constructing a provider from a config whose
`MaxPoolSize` is unset (zero) mutates that field of the supplied config to
1 (in Go, through the caller's pointer), so construction is not
mutation-free. -/
theorem provider_construction_mutates_config_cex :
    cfgZero.MaxPoolSize = 0 ∧
    (newSQLConnectionProvider cfgZero).config.MaxPoolSize = 1 ∧
    (newSQLConnectionProvider cfgZero).config ≠ cfgZero := by
  refine ⟨rfl, rfl, ?_⟩
  decide

/-- C9 (amended): `newSQLConnectionProvider` leaves every field of the
supplied config unchanged except `MaxPoolSize`, which it sets to 1 exactly
when it was 0 (the only mutation the construction performs; no other
provider or connection operation in the embedding takes the config other
than by value). -/
theorem provider_construction_mutates_only_max_pool_size (config : Config) :
    (newSQLConnectionProvider config).config.DriverName = config.DriverName ∧
    (newSQLConnectionProvider config).config.Descriptor = config.Descriptor ∧
    (newSQLConnectionProvider config).config.InitSQL = config.InitSQL ∧
    (newSQLConnectionProvider config).config.hasConnMaxLifetimeMs =
      config.hasConnMaxLifetimeMs ∧
    (newSQLConnectionProvider config).config.connMaxLifetimeMsVal =
      config.connMaxLifetimeMsVal ∧
    (newSQLConnectionProvider config).config.hasMaxIdleConns = config.hasMaxIdleConns ∧
    (newSQLConnectionProvider config).config.maxIdleConnsVal = config.maxIdleConnsVal ∧
    (newSQLConnectionProvider config).config.MaxPoolSize =
      (if config.MaxPoolSize = 0 then 1 else config.MaxPoolSize) := by
  unfold newSQLConnectionProvider
  by_cases h : config.MaxPoolSize = 0 <;> simp [h]

/-- C10: the provider's bounded pool is allocated with exactly the
(possibly defaulted) `MaxPoolSize` capacity, and a config with
`MaxPoolSize` unset (zero) yields effective capacity 1. -/
theorem default_pool_size_and_capacity (config : Config) :
    (newSQLConnectionProvider config).poolCapacity =
      (if config.MaxPoolSize = 0 then 1 else config.MaxPoolSize) ∧
    (newSQLConnectionProvider config).poolCapacity =
      (newSQLConnectionProvider config).config.MaxPoolSize := by
  unfold newSQLConnectionProvider
  by_cases h : config.MaxPoolSize = 0 <;> simp [h]

end Dsc
